import Mathlib

/-!
Verification of the link-preview metadata service (src/main.rs) against its
natural-language specification.

The development shallowly embeds the extraction pipeline of src/main.rs:

* the parsed-HTML data model and the selector queries that the tl crate
  answers for the extractors (a tree of tag/raw nodes, first-match-in-
  document-order selector lookup, attribute lookup where an attribute may be
  present without a value, and inner text concatenation);
* the URL model used by the url crate at the call sites of src/main.rs
  (absolute-URL parsing, reference resolution via join, host access),
  restricted to the hierarchical scheme-host-path subset the service
  exercises;
* every field extractor of src/main.rs by its source name
  (attr_from_first_query_match, get_title, get_domain, get_favicon, ...);
* the request handler root, with the fetch capability, the HTML parse
  capability and the request headers passed as explicit inputs, and with the
  panicking unwrap calls of the source made visible as a panicked outcome.
-/

/-! ## Parsed-HTML data model (the tl crate as consumed by src/main.rs) -/

/-- A node of the parsed document: an element tag carrying a name, an
attribute list (an attribute may be present without a value, as in bare
HTML attributes) and children, or a raw text node. This embeds the shape of
tl::Node that src/main.rs consumes through Node::Tag and inner_text. -/
inductive HNode where
  | tag (name : String) (attributes : List (String × Option String)) (children : List HNode)
  | raw (text : String)

/-- A parsed document (tl::VDom): the list of root nodes of the tree. -/
abbrev VDom := List HNode

/-- The selector shapes used by src/main.rs: a bare tag name such as
title, or an exact-match attribute form such as meta[property=og:title].
The source writes these as CSS selector strings; the embedding carries the
parsed meaning directly. -/
inductive Selector where
  | tagName (name : String)
  | tagAttrEq (name attr value : String)

/-- Whether a node matches a selector: a raw text node never matches; a tag
matches a bare tag-name selector by name, and an attribute selector when in
addition the named attribute is present with exactly the given value (a
valueless attribute does not match). -/
def matchesSelector (sel : Selector) : HNode → Bool
  | .tag name attrs _ =>
    match sel with
    | .tagName n => name == n
    | .tagAttrEq n a v =>
      name == n && (attrs.find? (fun p => p.1 == a)).any (fun p => p.2 == some v)
  | .raw _ => false

mutual
/-- The node itself followed by all of its descendants, in document order. -/
def nodeWithDescendants : HNode → List HNode
  | .raw s => [.raw s]
  | .tag name attrs cs => .tag name attrs cs :: forestNodes cs
/-- All nodes of a forest, in document order (preorder). -/
def forestNodes : List HNode → List HNode
  | [] => []
  | n :: ns => nodeWithDescendants n ++ forestNodes ns
end

/-- First element of the document matching the selector, in document order;
this is the query?.next() step of src/main.rs over tl::VDom::query_selector. -/
def query_selector (dom : VDom) (sel : Selector) : Option HNode :=
  (forestNodes dom).find? (fun n => matchesSelector sel n)

/-- Attribute lookup on a tag (tl::Attributes::get as used at line 25 of
src/main.rs): none when the attribute is absent, some none when the
attribute is present but valueless, some (some v) when it has value v. -/
def attributesGet (attrs : List (String × Option String)) (name : String) :
    Option (Option String) :=
  (attrs.find? (fun p => p.1 == name)).map (fun p => p.2)

mutual
/-- Text content of a node with markup stripped: descendant text nodes
concatenated in document order (tl inner_text as used by src/main.rs). -/
def inner_text : HNode → String
  | .raw s => s
  | .tag _ _ cs => inner_text_forest cs
/-- Concatenated text content of a forest of nodes. -/
def inner_text_forest : List HNode → String
  | [] => ""
  | n :: ns => inner_text n ++ inner_text_forest ns
end

/-! ## Field extractors over the document (src/main.rs lines 21 to 55 and 62 to 82) -/

/-- Embeds attr_from_first_query_match (src/main.rs lines 21 to 30): take the
first element matching the query; if it is a tag, look up the named
attribute; absence of a match, a non-tag match, absence of the attribute, and
a valueless attribute each yield none, mirroring the question-mark chain and
the if-let of the source. -/
def attr_from_first_query_match (dom : VDom) (query : Selector) (attr : String) :
    Option String :=
  match query_selector dom query with
  | none => none
  | some node =>
    match node with
    | .tag _ attrs _ =>
      match attributesGet attrs attr with
      | none => none
      | some content =>
        match content with
        | none => none
        | some v => some v
    | .raw _ => none

/-- Embeds title_from_title_tag (src/main.rs lines 36 to 44): the inner text
of the first element matching the selector title, when that element is a tag. -/
def title_from_title_tag (dom : VDom) : Option String :=
  match query_selector dom (Selector.tagName "title") with
  | none => none
  | some node =>
    match node with
    | .tag _ _ cs => some (inner_text_forest cs)
    | .raw _ => none

/-- Embeds get_title (src/main.rs lines 46 to 51): content of the first
meta[property=og:title] match when present, else the title-tag fallback. -/
def get_title (dom : VDom) : Option String :=
  match attr_from_first_query_match dom (Selector.tagAttrEq "meta" "property" "og:title") "content" with
  | some title => some title
  | none => title_from_title_tag dom

/-- Embeds get_description (src/main.rs lines 53 to 55). -/
def get_description (dom : VDom) : Option String :=
  attr_from_first_query_match dom (Selector.tagAttrEq "meta" "property" "og:description") "content"

/-- Embeds get_og_url (src/main.rs lines 72 to 74): the content attribute of
the first meta[property=og:url] match, returned as found, with no resolution
step (the function does not even receive the target URL). -/
def get_og_url (dom : VDom) : Option String :=
  attr_from_first_query_match dom (Selector.tagAttrEq "meta" "property" "og:url") "content"

/-- Embeds get_sitename (src/main.rs lines 76 to 78). -/
def get_sitename (dom : VDom) : Option String :=
  attr_from_first_query_match dom (Selector.tagAttrEq "meta" "property" "og:site_name") "content"

/-- Embeds get_type (src/main.rs lines 80 to 82). -/
def get_type (dom : VDom) : Option String :=
  attr_from_first_query_match dom (Selector.tagAttrEq "meta" "property" "og:type") "content"

/-! ## URL model

Modelled from the spec: the URL Resolver component (spec section 4.1) is
provided by the external url crate, which src/main.rs only calls (Url
deserialization of the url query parameter, Url::host_str at line 58,
Url::join at line 33). The embedding below implements absolute-URL parsing
and standard relative-reference resolution on the hierarchical
scheme://host/path?query#fragment subset the service exercises, leaving out
userinfo, ports and the special-scheme leniencies of the WHATWG parser that
no claim touches. -/

/-- A parsed absolute URL. The path is kept as its list of segments; the
rendered path is a slash followed by the slash-separated segments, so the
segments of the root path are a single empty segment. -/
structure Url where
  scheme : String
  host : Option String
  path : List String
  query : Option String
  fragment : Option String
deriving Repr, DecidableEq

/-- Characters allowed in a scheme after its first (alphabetic) character. -/
def isSchemeChar (c : Char) : Bool :=
  c.isAlphanum || c == '+' || c == '-' || c == '.'

/-- Reads scheme characters until a colon; returns the accumulated scheme and
the rest, or none when a non-scheme character or the end arrives first. -/
def takeScheme (acc : List Char) : List Char → Option (List Char × List Char)
  | [] => none
  | c :: cs =>
    if c == ':' then some (acc.reverse, cs)
    else if isSchemeChar c then takeScheme (c :: acc) cs
    else none

/-- Splits a character list at the first occurrence of a separator; the
second component is none when the separator does not occur. -/
def splitAtFirst (sep : Char) : List Char → List Char × Option (List Char)
  | [] => ([], none)
  | c :: cs =>
    if c == sep then ([], some cs)
    else
      let r := splitAtFirst sep cs
      (c :: r.1, r.2)

/-- Splits a character list on every occurrence of a separator. -/
def splitAllAux (sep : Char) (acc : List Char) : List Char → List (List Char)
  | [] => [acc.reverse]
  | c :: cs =>
    if c == sep then acc.reverse :: splitAllAux sep [] cs
    else splitAllAux sep (c :: acc) cs

/-- Path segments of the character list following the leading slash. -/
def pathSegmentsOf (p : List Char) : List String :=
  (splitAllAux '/' [] p).map (fun l => String.mk l)

/-- The remove-dot-segments step of standard reference resolution, on
segment lists: single-dot segments vanish, double-dot segments pop the
previous segment, and a trailing dot segment leaves a trailing slash. -/
def removeDotSegmentsAux (out : List String) : List String → List String
  | [] => out.reverse
  | s :: rest =>
    if s == "." then
      match rest with
      | [] => ("" :: out).reverse
      | _ => removeDotSegmentsAux out rest
    else if s == ".." then
      match rest with
      | [] => ("" :: out.tail).reverse
      | _ => removeDotSegmentsAux out.tail rest
    else removeDotSegmentsAux (s :: out) rest

/-- Removes dot segments from a segment list. -/
def removeDotSegments (segs : List String) : List String :=
  removeDotSegmentsAux [] segs

/-- Parses what follows scheme and colon in an absolute URL: two slashes, a
nonempty authority (its host), then an optional path, query and fragment.
Fails (as Url::parse does with an empty-host error) when the authority is
empty. -/
def parseAfterScheme (scheme : String) (rest : List Char) : Option Url :=
  match rest with
  | '/' :: '/' :: tail =>
    let bf := splitAtFirst '#' tail
    let bq := splitAtFirst '?' bf.1
    let ap := splitAtFirst '/' bq.1
    if ap.1.isEmpty then none
    else
      some { scheme := scheme
             host := some (String.mk ap.1)
             path :=
               match ap.2 with
               | none => [""]
               | some p => removeDotSegments (pathSegmentsOf p)
             query := bq.2.map (fun l => String.mk l)
             fragment := bf.2.map (fun l => String.mk l) }
  | _ => none

/-- Parses a string as an absolute URL of the modelled subset: an alphabetic
initial scheme character, scheme characters up to a colon, then the
authority and path form. A string with no scheme (a relative reference) is
rejected, as Url::parse rejects it with a relative-URL-without-a-base error;
this is the parse performed by the Params deserialization of src/main.rs
lines 16 to 19. -/
def Url.parse (s : String) : Option Url :=
  match s.data with
  | [] => none
  | c :: cs =>
    if c.isAlpha then
      match takeScheme [c] cs with
      | none => none
      | some sr => parseAfterScheme (String.mk sr.1) sr.2
    else none

/-- Resolution of a reference that carries no scheme against a base URL:
a network-path reference (two leading slashes) keeps the scheme of the base;
an absolute-path reference keeps scheme and host; an empty path keeps the
path of the base and, when the reference has no query either, its query; a
relative path merges with the path of the base (all but its last segment,
then the segments of the reference), with dot segments removed. -/
def joinRelative (base : Url) (r : List Char) : Option Url :=
  match r with
  | '/' :: '/' :: _ => parseAfterScheme base.scheme r
  | _ =>
    let bf := splitAtFirst '#' r
    let bq := splitAtFirst '?' bf.1
    match bq.1 with
    | [] =>
      some { scheme := base.scheme
             host := base.host
             path := base.path
             query :=
               match bq.2 with
               | some q => some (String.mk q)
               | none => base.query
             fragment := bf.2.map (fun l => String.mk l) }
    | '/' :: pathChars =>
      some { scheme := base.scheme
             host := base.host
             path := removeDotSegments (pathSegmentsOf pathChars)
             query := bq.2.map (fun l => String.mk l)
             fragment := bf.2.map (fun l => String.mk l) }
    | _ =>
      some { scheme := base.scheme
             host := base.host
             path := removeDotSegments (base.path.dropLast ++ pathSegmentsOf bq.1)
             query := bq.2.map (fun l => String.mk l)
             fragment := bf.2.map (fun l => String.mk l) }

/-- Embeds Url::join as called by get_absolute_path: standard
relative-reference resolution. A reference with a scheme is parsed on its
own; the empty reference yields the base without its fragment; otherwise the
reference resolves against scheme, host and path of the base. Returns none
when the result is not a well-formed URL of the modelled subset (for
example a scheme followed by two slashes and an empty host). -/
def Url.join (base : Url) (reference : String) : Option Url :=
  match reference.data with
  | [] => some { base with fragment := none }
  | c :: cs =>
    if c.isAlpha then
      match takeScheme [c] cs with
      | some sr => parseAfterScheme (String.mk sr.1) sr.2
      | none => joinRelative base (c :: cs)
    else joinRelative base (c :: cs)

/-- Renders a URL back to its string form. -/
def Url.toStr (u : Url) : String :=
  u.scheme ++ "://" ++ (match u.host with | some h => h | none => "")
    ++ "/" ++ String.intercalate "/" u.path
    ++ (match u.query with | some q => "?" ++ q | none => "")
    ++ (match u.fragment with | some f => "#" ++ f | none => "")

/-! ## Extractors that involve the target URL (src/main.rs lines 32 to 34 and 57 to 70) -/

/-- Whether the pattern is an initial run of the character list. -/
def isInitialRun : List Char → List Char → Bool
  | [], _ => true
  | _ :: _, [] => false
  | p :: ps, c :: cs => p == c && isInitialRun ps cs

/-- Replaces every non-overlapping occurrence of the pattern, scanning left
to right, as the str replace of Rust does; the fuel argument (instantiated
with the length of the scanned list) keeps the recursion structural. An
empty pattern is left untouched (the call below always passes a nonempty
pattern). -/
def replaceAllFuel (pat rep : List Char) : Nat → List Char → List Char
  | _, [] => []
  | 0, l => l
  | fuel + 1, c :: cs =>
    if !pat.isEmpty && isInitialRun pat (c :: cs) then
      rep ++ replaceAllFuel pat rep fuel (List.drop (pat.length - 1) cs)
    else c :: replaceAllFuel pat rep fuel cs

/-- Embeds the str replace call of Rust on strings: every non-overlapping
occurrence of the pattern is replaced, scanning left to right. -/
def rustReplace (s pat rep : String) : String :=
  String.mk (replaceAllFuel pat.data rep.data s.data.length s.data)

/-- Embeds get_domain (src/main.rs lines 57 to 60): the host of the target
URL with every occurrence of the pattern www-dot replaced by the empty
string (host.replace is the replace-all of Rust, not a prefix strip). -/
def get_domain (url : Url) : Option String :=
  match url.host with
  | none => none
  | some host => some (rustReplace host "www." "")

/-- Embeds get_absolute_path (src/main.rs lines 32 to 34): Url::join with
the error discarded to none. -/
def get_absolute_path (url : Url) (relative_path : String) : Option Url :=
  url.join relative_path

/-- Embeds get_favicon (src/main.rs lines 62 to 65): the href attribute of
the first link[rel=icon] match, resolved against the target URL. -/
def get_favicon (dom : VDom) (url : Url) : Option Url :=
  match attr_from_first_query_match dom (Selector.tagAttrEq "link" "rel" "icon") "href" with
  | none => none
  | some favicon => get_absolute_path url favicon

/-- Embeds get_image (src/main.rs lines 67 to 70): the content attribute of
the first meta[property=og:image] match, resolved against the target URL. -/
def get_image (dom : VDom) (url : Url) : Option Url :=
  match attr_from_first_query_match dom (Selector.tagAttrEq "meta" "property" "og:image") "content" with
  | none => none
  | some image => get_absolute_path url image

/-! ## Request handler (src/main.rs lines 13 to 14 and 84 to 134) -/

/-- The fixed default identification string (src/main.rs lines 13 to 14). -/
def APP_USER_AGENT : String :=
  "Mozilla/5.0 (X11; Linux i686; rv:112.0) Gecko/20100101 Firefox/112.0"

/-- A transport-level failure of the outbound fetch (a DNS or connection
error carried by the Err of reqwest send); the detail string stands for the
diagnostic payload. -/
inductive FetchError where
  | connection (detail : String)
deriving Repr, DecidableEq

/-- An HTTP response as delivered by the fetch capability: a status code and
the body text. The source reads only the body (response.text at line 114)
and never inspects the status. -/
structure HttpResponse where
  status : Nat
  body : String
deriving Repr, DecidableEq

/-- Embeds the Response record of src/main.rs lines 84 to 95 (the
MetadataResult of the spec): eight independently optional fields. -/
structure Response where
  title : Option String
  description : Option String
  domain : Option String
  favicon : Option Url
  image : Option Url
  og_url : Option String
  sitename : Option String
  site_type : Option String
deriving Repr, DecidableEq

/-- Embeds the extraction steps and record construction inlined in root
(src/main.rs lines 116 to 133): the eight extractors run against the same
parsed document and target URL, independently. -/
def extractMetadata (dom : VDom) (url : Url) : Response :=
  { title := get_title dom
    description := get_description dom
    domain := get_domain url
    favicon := get_favicon dom url
    image := get_image dom url
    og_url := get_og_url dom
    sitename := get_sitename dom
    site_type := get_type dom }

/-- Outcome of one request against the handler: a serialized metadata
record, a bad-request rejection raised by the Query extractor before the
handler body runs (the InvalidInput of the spec), or a panic of the handler
task (an unwrap on a failed fetch or parse, src/main.rs lines 113 to 115). -/
inductive HandlerOutcome where
  | ok (response : Response)
  | badRequest
  | panicked
deriving Repr, DecidableEq

/-- Case-preserving lookup of a request header by name. -/
def headersGet (headers : List (String × String)) (name : String) : Option String :=
  (headers.find? (fun p => p.1 == name)).map (fun p => p.2)

/-- Embeds the user-agent choice of root (src/main.rs lines 99 to 102): the
User-Agent request header when present, else APP_USER_AGENT (the map_or on
the header lookup). -/
def chooseUserAgent (request : List (String × String)) : String :=
  match headersGet request "User-Agent" with
  | some v => v
  | none => APP_USER_AGENT

/-- Continuation of root from the moment the fetch returns (src/main.rs
lines 113 to 133): an Err fetch outcome hits unwrap and the task panics; an
Ok response has its body parsed (a parse failure again hits unwrap), and the
metadata record is built from the resulting document. The status of the
response is never consulted. -/
def afterFetch (parseHtml : String → Option VDom) (url : Url) :
    Except FetchError HttpResponse → HandlerOutcome
  | .error _ => .panicked
  | .ok response =>
    match parseHtml response.body with
    | none => .panicked
    | some dom => .ok (extractMetadata dom url)

/-- Embeds the handler root (src/main.rs lines 97 to 134) with its
collaborators explicit: parseHtml is the tl parse capability, send is the
fetch capability taking the user agent the client was built with and the
target URL, request is the header list, and urlParam the raw url query
parameter. A missing parameter or one that does not parse as an absolute
URL is rejected by the Query extractor of the Params struct (src/main.rs
lines 16 to 19 and 98) before the body runs, so no fetch happens there. -/
def root (parseHtml : String → Option VDom)
    (send : String → Url → Except FetchError HttpResponse)
    (request : List (String × String)) (urlParam : Option String) : HandlerOutcome :=
  match urlParam with
  | none => .badRequest
  | some raw =>
    match Url.parse raw with
    | none => .badRequest
    | some url => afterFetch parseHtml url (send (chooseUserAgent request) url)

/-! ## Concrete fixtures for the claims -/

/-- The target URL https://example.com/blog/post of the resolution example. -/
def exampleBase : Url :=
  { scheme := "https", host := some "example.com", path := ["blog", "post"]
    query := none, fragment := none }

/-- A target URL whose host is www.example.com. -/
def hostWwwUrl : Url :=
  { scheme := "https", host := some "www.example.com", path := [""]
    query := none, fragment := none }

/-- A target URL whose host is shop.www.example.com, where www. occurs in
the middle of the host rather than as its leading label. -/
def hostShopUrl : Url :=
  { scheme := "https", host := some "shop.www.example.com", path := [""]
    query := none, fragment := none }

/-- A document whose first og:title meta carries no content attribute while
a second og:title meta carries content X, next to a title element with text
B. -/
def twoOgTitleDom : VDom :=
  [ .tag "head" []
      [ .tag "meta" [("property", some "og:title")] []
      , .tag "meta" [("property", some "og:title"), ("content", some "X")] []
      , .tag "title" [] [.raw "B"] ] ]

/-- A document whose only metadata-bearing element is a title element with
no text content at all. -/
def emptyTitleDom : VDom :=
  [ .tag "html" [] [ .tag "head" [] [ .tag "title" [] [] ] ] ]

/-- A document whose og:description meta carries the content attribute as a
bare name with no value. -/
def bareContentDom : VDom :=
  [ .tag "meta" [("property", some "og:description"), ("content", none)] [] ]

/-- A document whose og:url meta carries a relative reference as content. -/
def relOgUrlDom : VDom :=
  [ .tag "head" []
      [ .tag "meta" [("property", some "og:url"), ("content", some "/relative/path")] [] ] ]

/-- A document carrying og:image content img/cover.png, the reference of
the resolution example. -/
def coverDom : VDom :=
  [ .tag "head" []
      [ .tag "meta" [("property", some "og:image"), ("content", some "img/cover.png")] [] ] ]

/-- The resolved image URL https://example.com/blog/img/cover.png. -/
def coverUrl : Url :=
  { scheme := "https", host := some "example.com", path := ["blog", "img", "cover.png"]
    query := none, fragment := none }

/-- The parsed tree of a typical not-found error page body. -/
def notFoundDom : VDom :=
  [ .tag "html" [] [ .tag "head" [] [ .tag "title" [] [ .raw "Not Found" ] ] ] ]

/-- An HTML parse capability that parses every body to the error-page tree. -/
def parseToNotFound : String → Option VDom := fun _ => some notFoundDom

/-- A fetch capability whose target answers every request with status 404
and an error-page body, as a live server does for a missing path; the
transport itself completes. -/
def fetch404 : String → Url → Except FetchError HttpResponse :=
  fun _ _ => .ok { status := 404, body := "<html><head><title>Not Found</title></head></html>" }

/-- A fetch capability whose requests all fail at the transport level, as
when the host does not resolve over DNS. -/
def fetchDnsFailure : String → Url → Except FetchError HttpResponse :=
  fun _ _ => .error (.connection "dns error: no such host")

/-- Whether the document contains, anywhere, an element matching the
og:title meta selector that carries a content attribute with a value. -/
def hasOgTitleWithContent (dom : VDom) : Bool :=
  (forestNodes dom).any (fun n =>
    matchesSelector (Selector.tagAttrEq "meta" "property" "og:title") n &&
    (match n with
     | .tag _ attrs _ =>
       (match attributesGet attrs "content" with
        | some (some _) => true
        | _ => false)
     | .raw _ => false))

/-! ## Helper lemmas -/

/-- A node returned by query_selector satisfies the selector it was queried
with; in particular it is always a tag node, since raw text never matches. -/
theorem query_selector_matches {dom : VDom} {sel : Selector} {n : HNode}
    (h : query_selector dom sel = some n) : matchesSelector sel n = true :=
  List.find?_some h

/-! ## Claims -/

/-- C1, counterexample: the claim says a host is returned unchanged unless
it literally starts with the prefix www-dot, so shop.www.example.com should
be returned as is; get_domain instead uses the replace-all of Rust and
returns shop.example.com. -/
theorem C1_counterexample_inner_www_also_stripped :
    get_domain hostShopUrl = some "shop.example.com" ∧
    get_domain hostShopUrl ≠ some "shop.www.example.com" := by
  refine ⟨by decide, by decide⟩

/-- C1, amended: get_domain returns the host of the target URL with every
non-overlapping occurrence of the substring www-dot removed, scanning left
to right, not only a leading label: www.example.com becomes example.com and
shop.www.example.com becomes shop.example.com. -/
theorem C1_amended_get_domain_removes_every_www (url : Url) (hstr : String)
    (h : url.host = some hstr) :
    get_domain url = some (rustReplace hstr "www." "") ∧
    get_domain hostWwwUrl = some "example.com" ∧
    get_domain hostShopUrl = some "shop.example.com" := by
  refine ⟨?_, by decide, by decide⟩
  simp [get_domain, h]

/-- C1, witness for the amended theorem at the host shop.www.example.com. -/
theorem C1_amended_get_domain_removes_every_www_witness :
    get_domain hostShopUrl = some (rustReplace "shop.www.example.com" "www." "") :=
  (C1_amended_get_domain_removes_every_www hostShopUrl "shop.www.example.com" rfl).1

/-- C2, code bug: the claim (and the error-handling design of the spec)
says every unsuccessfully completed fetch, non-2xx responses included,
yields a FetchFailure outcome and no MetadataResult. The code never
inspects the response status: at the failing input, a request for
https://example.com/missing answered by the server with status 404 and an
error page body, the handler parses the error page and returns a fully
constructed metadata record; and when the same request fails at the
transport level the handler panics on unwrap instead of producing a
structured failure outcome. -/
theorem C2_non2xx_builds_result_and_transport_error_panics :
    root parseToNotFound fetch404 [] (some "https://example.com/missing") =
      .ok { title := some "Not Found", description := none, domain := some "example.com"
            favicon := none, image := none, og_url := none
            sitename := none, site_type := none } ∧
    fetch404 APP_USER_AGENT
      { scheme := "https", host := some "example.com", path := ["missing"]
        query := none, fragment := none } =
      .ok { status := 404, body := "<html><head><title>Not Found</title></head></html>" } ∧
    root parseToNotFound fetchDnsFailure [] (some "https://example.com/missing") =
      .panicked := by
  refine ⟨by decide, rfl, by decide⟩

/-- C3, counterexample: the claim says that whenever an og:title meta with a
content attribute exists the title is that content value; in the document
twoOgTitleDom such an element exists with content X, yet get_title consults
only the first og:title match, which has no content attribute, and falls
back to the title element text B. -/
theorem C3_counterexample_only_first_og_title_consulted :
    hasOgTitleWithContent twoOgTitleDom = true ∧
    get_title twoOgTitleDom = some "B" ∧
    get_title twoOgTitleDom ≠ some "X" := by
  refine ⟨by decide, by decide, by decide⟩

/-- C3, amended: title extraction is an ordered fallback chain over first
matches: when the first meta[property=og:title] element carries a content
attribute with a value, the title is that value (the title element is not
consulted); when the og:title attempt yields nothing, the title is the text
content of the first title element when one exists, and None otherwise. -/
theorem C3_amended_title_fallback_chain (dom : VDom) :
    (∀ name attrs cs v,
        query_selector dom (Selector.tagAttrEq "meta" "property" "og:title") =
          some (.tag name attrs cs) →
        attributesGet attrs "content" = some (some v) →
        get_title dom = some v) ∧
    (attr_from_first_query_match dom (Selector.tagAttrEq "meta" "property" "og:title") "content" = none →
      (∀ name attrs cs,
          query_selector dom (Selector.tagName "title") = some (.tag name attrs cs) →
          get_title dom = some (inner_text_forest cs)) ∧
      (query_selector dom (Selector.tagName "title") = none → get_title dom = none)) := by
  refine ⟨?_, ?_⟩
  · intro name attrs cs v hq ha
    simp [get_title, attr_from_first_query_match, hq, ha]
  · intro h
    refine ⟨?_, ?_⟩
    · intro name attrs cs hq
      simp [get_title, h, title_from_title_tag, hq]
    · intro hq
      simp [get_title, h, title_from_title_tag, hq]

/-- C3, witness for the amended theorem: on twoOgTitleDom the og:title
attempt yields nothing, so the title is the text of the title element. -/
theorem C3_amended_title_fallback_chain_witness :
    get_title twoOgTitleDom = some (inner_text_forest [HNode.raw "B"]) :=
  ((C3_amended_title_fallback_chain twoOgTitleDom).2 rfl).1 "title" [] [HNode.raw "B"] rfl

/-- C4: a request whose url query parameter is missing, or present but not
parseable as an absolute URL, is rejected as a bad request for every fetch
capability and every parse capability; in particular the outcome does not
depend on the fetch collaborator, so no network I/O is involved in it. -/
theorem C4_invalid_or_missing_url_rejected_before_fetch
    (parseHtml : String → Option VDom)
    (send : String → Url → Except FetchError HttpResponse)
    (request : List (String × String)) :
    root parseHtml send request none = .badRequest ∧
    (∀ raw, Url.parse raw = none → root parseHtml send request (some raw) = .badRequest) := by
  refine ⟨rfl, ?_⟩
  intro raw h
  simp [root, h]

/-- C4, witness at the malformed parameter value. -/
theorem C4_invalid_or_missing_url_rejected_before_fetch_witness :
    Url.parse "not a url" = none ∧
    root (fun _ => some []) (fun _ _ => .ok { status := 200, body := "" }) []
      (some "not a url") = .badRequest :=
  ⟨rfl, (C4_invalid_or_missing_url_rejected_before_fetch (fun _ => some [])
    (fun _ _ => .ok { status := 200, body := "" }) []).2 "not a url" rfl⟩

/-- C5, counterexample: the claim says a document matching none of the
expected tags yields a result with all fields None; on the empty document
with target URL https://example.com/blog/post the result is well formed but
its domain field, derived from the target URL rather than the document, is
present. -/
theorem C5_counterexample_domain_field_is_present :
    extractMetadata [] exampleBase =
      { title := none, description := none, domain := some "example.com"
        favicon := none, image := none, og_url := none
        sitename := none, site_type := none } ∧
    (extractMetadata [] exampleBase).domain ≠ none := by
  refine ⟨by decide, by decide⟩

/-- C5, amended: no field extractor raises an error and a metadata record
is always constructed (extractMetadata is a total function); a document in
which no selector of the pipeline matches any element yields a record with
every document-derived field None, the domain field still being computed
from the target URL alone. -/
theorem C5_amended_unmatched_document_yields_empty_record (dom : VDom) (url : Url)
    (h1 : query_selector dom (Selector.tagAttrEq "meta" "property" "og:title") = none)
    (h2 : query_selector dom (Selector.tagName "title") = none)
    (h3 : query_selector dom (Selector.tagAttrEq "meta" "property" "og:description") = none)
    (h4 : query_selector dom (Selector.tagAttrEq "link" "rel" "icon") = none)
    (h5 : query_selector dom (Selector.tagAttrEq "meta" "property" "og:image") = none)
    (h6 : query_selector dom (Selector.tagAttrEq "meta" "property" "og:url") = none)
    (h7 : query_selector dom (Selector.tagAttrEq "meta" "property" "og:site_name") = none)
    (h8 : query_selector dom (Selector.tagAttrEq "meta" "property" "og:type") = none) :
    extractMetadata dom url =
      { title := none, description := none, domain := get_domain url
        favicon := none, image := none, og_url := none
        sitename := none, site_type := none } := by
  simp [extractMetadata, get_title, get_description, get_favicon, get_image,
        get_og_url, get_sitename, get_type, title_from_title_tag,
        attr_from_first_query_match, h1, h2, h3, h4, h5, h6, h7, h8]

/-- C5, witness for the amended theorem on the empty document. -/
theorem C5_amended_unmatched_document_yields_empty_record_witness :
    extractMetadata [] exampleBase =
      { title := none, description := none, domain := get_domain exampleBase
        favicon := none, image := none, og_url := none
        sitename := none, site_type := none } :=
  C5_amended_unmatched_document_yields_empty_record [] exampleBase
    rfl rfl rfl rfl rfl rfl rfl rfl

/-- C6: the favicon field is the href attribute of the first link[rel=icon]
match resolved against the target URL, and the image field is the content
attribute of the first og:image meta match resolved the same way; each is
None when its attribute yields nothing or the reference does not resolve
against the base; and for target https://example.com/blog/post with og:image
content img/cover.png the image resolves to
https://example.com/blog/img/cover.png. -/
theorem C6_favicon_and_image_resolved_against_target (dom : VDom) (url : Url) :
    (attr_from_first_query_match dom (Selector.tagAttrEq "link" "rel" "icon") "href" = none →
        get_favicon dom url = none) ∧
    (∀ r, attr_from_first_query_match dom (Selector.tagAttrEq "link" "rel" "icon") "href" = some r →
        get_favicon dom url = get_absolute_path url r) ∧
    (∀ r, attr_from_first_query_match dom (Selector.tagAttrEq "link" "rel" "icon") "href" = some r →
        get_absolute_path url r = none → get_favicon dom url = none) ∧
    (attr_from_first_query_match dom (Selector.tagAttrEq "meta" "property" "og:image") "content" = none →
        get_image dom url = none) ∧
    (∀ r, attr_from_first_query_match dom (Selector.tagAttrEq "meta" "property" "og:image") "content" = some r →
        get_image dom url = get_absolute_path url r) ∧
    (∀ r, attr_from_first_query_match dom (Selector.tagAttrEq "meta" "property" "og:image") "content" = some r →
        get_absolute_path url r = none → get_image dom url = none) ∧
    Url.parse "https://example.com/blog/post" = some exampleBase ∧
    get_image coverDom exampleBase = some coverUrl ∧
    Url.toStr coverUrl = "https://example.com/blog/img/cover.png" := by
  refine ⟨?_, ?_, ?_, ?_, ?_, ?_, by decide, by decide, by decide⟩
  · intro h; simp [get_favicon, h]
  · intro r h; simp [get_favicon, h]
  · intro r h hr; simp [get_favicon, h, hr]
  · intro h; simp [get_image, h]
  · intro r h; simp [get_image, h]
  · intro r h hr; simp [get_image, h, hr]

/-- C6, witness: on the cover document no link[rel=icon] element exists, so
the favicon field is None. -/
theorem C6_favicon_and_image_resolved_against_target_witness :
    get_favicon coverDom exampleBase = none :=
  (C6_favicon_and_image_resolved_against_target coverDom exampleBase).1 rfl

/-- C7: the canonical-URL field is the content attribute of the first
og:url meta match exactly as found in the markup, with no resolution against
any base; in particular the relative reference /relative/path carried by
relOgUrlDom is returned verbatim. -/
theorem C7_og_url_verbatim (dom : VDom) (name : String)
    (attrs : List (String × Option String)) (cs : List HNode) (v : String)
    (hq : query_selector dom (Selector.tagAttrEq "meta" "property" "og:url") =
      some (.tag name attrs cs))
    (ha : attributesGet attrs "content" = some (some v)) :
    get_og_url dom = some v ∧
    get_og_url relOgUrlDom = some "/relative/path" := by
  refine ⟨?_, by decide⟩
  simp [get_og_url, attr_from_first_query_match, hq, ha]

/-- C7, witness at the document carrying a relative og:url content. -/
theorem C7_og_url_verbatim_witness :
    get_og_url relOgUrlDom = some "/relative/path" :=
  (C7_og_url_verbatim relOgUrlDom "meta"
    [("property", some "og:url"), ("content", some "/relative/path")] []
    "/relative/path" rfl rfl).1

/-- C8: for every request that reaches the fetch step, the outbound fetch
is performed with the User-Agent request header value when that header is
present, and with the fixed APP_USER_AGENT string when it is absent. -/
theorem C8_user_agent_forwarded_or_default
    (parseHtml : String → Option VDom)
    (send : String → Url → Except FetchError HttpResponse)
    (request : List (String × String)) (raw : String) (url : Url)
    (hparse : Url.parse raw = some url) :
    (∀ ua, headersGet request "User-Agent" = some ua →
        root parseHtml send request (some raw) =
          afterFetch parseHtml url (send ua url)) ∧
    (headersGet request "User-Agent" = none →
        root parseHtml send request (some raw) =
          afterFetch parseHtml url (send APP_USER_AGENT url)) := by
  refine ⟨?_, ?_⟩
  · intro ua hua
    simp [root, hparse, chooseUserAgent, hua]
  · intro hua
    simp [root, hparse, chooseUserAgent, hua]

/-- A fetch capability that reflects the user agent it was invoked with
back in the response body, making the forwarded identification observable. -/
def uaProbeSend : String → Url → Except FetchError HttpResponse :=
  fun ua _ => .ok { status := 200, body := ua }

/-- The parsed form of https://example.com/ used by the C8 witness. -/
def rootUrl : Url :=
  { scheme := "https", host := some "example.com", path := [""]
    query := none, fragment := none }

/-- C8, witness: with the User-Agent header set to TestAgent/1.0 the
handler invokes the fetch with exactly that identification. -/
theorem C8_user_agent_forwarded_or_default_witness :
    root (fun _ => some []) uaProbeSend [("User-Agent", "TestAgent/1.0")]
      (some "https://example.com/") =
      afterFetch (fun _ => some []) rootUrl (uaProbeSend "TestAgent/1.0" rootUrl) :=
  (C8_user_agent_forwarded_or_default (fun _ => some []) uaProbeSend
    [("User-Agent", "TestAgent/1.0")] "https://example.com/" rootUrl rfl).1
    "TestAgent/1.0" rfl

/-- C9: when the og:title attempt yields nothing and the first title
element has empty text content, the title is the present empty string, not
None; and the title can be None only when no title element exists at all. -/
theorem C9_empty_title_text_is_present_empty_string (dom : VDom)
    (hog : attr_from_first_query_match dom
      (Selector.tagAttrEq "meta" "property" "og:title") "content" = none) :
    (∀ name attrs cs,
        query_selector dom (Selector.tagName "title") = some (.tag name attrs cs) →
        inner_text_forest cs = "" →
        get_title dom = some "") ∧
    (get_title dom = none → query_selector dom (Selector.tagName "title") = none) := by
  refine ⟨?_, ?_⟩
  · intro name attrs cs hq he
    simp [get_title, hog, title_from_title_tag, hq, he]
  · intro h
    cases hq : query_selector dom (Selector.tagName "title") with
    | none => rfl
    | some n =>
      exfalso
      have hm := query_selector_matches hq
      cases n with
      | raw s => simp [matchesSelector] at hm
      | tag name attrs cs =>
        rw [get_title, hog] at h
        rw [title_from_title_tag, hq] at h
        simp at h

/-- C9, witness: on the document whose title element is empty, the title is
the present empty string. -/
theorem C9_empty_title_text_is_present_empty_string_witness :
    get_title emptyTitleDom = some "" :=
  (C9_empty_title_text_is_present_empty_string emptyTitleDom rfl).1 "title" [] [] rfl rfl

/-- C10: when the first element matching a selector carries the named
attribute as a bare name with no value, the attribute extractor yields
None, exactly as when the attribute is missing entirely. -/
theorem C10_valueless_attribute_yields_none (dom : VDom) (sel : Selector)
    (attr name : String) (attrs : List (String × Option String)) (cs : List HNode)
    (hq : query_selector dom sel = some (.tag name attrs cs))
    (ha : attributesGet attrs attr = some none) :
    attr_from_first_query_match dom sel attr = none := by
  simp [attr_from_first_query_match, hq, ha]

/-- C10, witness: on the document whose og:description meta carries a bare
content attribute, the description extraction yields None. -/
theorem C10_valueless_attribute_yields_none_witness :
    attr_from_first_query_match bareContentDom
      (Selector.tagAttrEq "meta" "property" "og:description") "content" = none :=
  C10_valueless_attribute_yields_none bareContentDom
    (Selector.tagAttrEq "meta" "property" "og:description") "content" "meta"
    [("property", some "og:description"), ("content", none)] [] rfl rfl
